import Mathlib

/-!
# pebble.timeface: display state, redraw requests and lifecycle

A shallow embedding of `src/Gui.c`, `src/Battery.c`, `src/Bluetooth.c`, `src/Timer.c` and
`src/main.c`.

* The file-scope `static` variables of `Gui.c` and the two function-scope `static` buffers
  become fields of `World`.
* The Pebble SDK is outside the repository.  Every SDK call the program makes is appended to
  `World.calls` in program order, and the attributes the theorems read back (liveness, frame,
  hidden flag, explicit dirty requests, bound text buffer, update procedure, parent link) are
  tracked per layer.  Pure accessor calls (`window_get_root_layer`, `bitmap_layer_get_layer`,
  `text_layer_get_layer`, `fonts_get_system_font`) have no effect and C leaves their relative
  order inside one argument list unspecified, so they are not logged.
* `time`, `localtime`, `clock_is_24h_style` and the two `*_service_peek` functions read the
  outside world; their results are supplied by an `Env` argument.
* `strftime` follows ISO C for the conversions used (`%H %I %M %B %e`) in the C locale; when
  the result does not fit, ISO C leaves the array contents indeterminate, modelled as `none`.
-/

namespace Timeface

/-! ## SDK data types -/

/-- Rectangle `GRect(x, y, w, h)`. -/
structure GRect where
  x : Int
  y : Int
  w : Int
  h : Int
deriving DecidableEq, Repr

/-- The two colours used by the program. -/
inductive GColor
  | GColorBlack
  | GColorWhite
deriving DecidableEq, Repr

/-- The seven layer pointers declared at the top of `Gui.c`; a layer object is identified with
the variable that holds it (each is assigned exactly once, in `MainWindowLoad`). -/
inductive LayerVar
  | tBackgroundLayer
  | tBatteryShellLayer
  | tBatteryLevelLayer
  | tBatteryChargingLayer
  | tBluetoothConnectedLayer
  | tTimeLayer
  | tDateLayer
deriving DecidableEq, Repr

/-- The three bitmap pointers declared at the top of `Gui.c`. -/
inductive BitmapVar
  | tBatteryShellBitmap
  | tBatteryChargingBitmap
  | tBluetoothConnectedBitmap
deriving DecidableEq, Repr

/-- Image resources named in `MainWindowLoad`. -/
inductive ResourceId
  | RESOURCE_ID_IMAGE_BATTERY
  | RESOURCE_ID_IMAGE_CHARGING
  | RESOURCE_ID_IMAGE_BLUETOOTH
deriving DecidableEq, Repr

/-- System fonts named in `MainWindowLoad`. -/
inductive FontKey
  | FONT_KEY_BITHAM_42_MEDIUM_NUMBERS
  | FONT_KEY_GOTHIC_24
deriving DecidableEq, Repr

/-- The two layer update procedures of `Gui.c`. -/
inductive UpdateProc
  | BackgroundLayerUpdate
  | BatteryLevelLayerUpdate
deriving DecidableEq, Repr

/-- The two function-scope `static char acBuffer[]` arrays: the one of `GuiUpdateTime` and the
one of `GuiUpdateDate`. -/
inductive TextBuffer
  | timeBuffer
  | dateBuffer
deriving DecidableEq, Repr

/-- The SDK type `BatteryChargeState` (`charge_percent` is a `uint8_t`). -/
structure BatteryChargeState where
  charge_percent : Nat
  is_charging : Bool
  is_plugged : Bool
deriving DecidableEq, Repr

/-- The fields of `struct tm` that the format strings of `Gui.c` read. -/
structure Tm where
  tm_min : Nat
  tm_hour : Nat
  tm_mday : Nat
  tm_mon : Nat
deriving DecidableEq, Repr

/-- `TimeUnits` flag `SECOND_UNIT`. -/
def SECOND_UNIT : Nat := 1
/-- `TimeUnits` flag `MINUTE_UNIT`. -/
def MINUTE_UNIT : Nat := 2
/-- `TimeUnits` flag `HOUR_UNIT`. -/
def HOUR_UNIT : Nat := 4
/-- `TimeUnits` flag `DAY_UNIT`. -/
def DAY_UNIT : Nat := 8

/-- `#define DATE_BUFFER_LENGTH 12` -/
def DATE_BUFFER_LENGTH : Nat := 12

/-- `sizeof(acBuffer)` for `static char acBuffer[] = "00:00"`: five characters and the
terminator. -/
def TIME_BUFFER_SIZE : Nat := 6

/-- One SDK call, with the arguments the program passes. -/
inductive Call
  | window_create
  | window_set_window_handlers
  | window_stack_push (animated : Bool)
  | window_destroy
  | layer_create (v : LayerVar) (frame : GRect)
  | bitmap_layer_create (v : LayerVar) (frame : GRect)
  | text_layer_create (v : LayerVar) (frame : GRect)
  | layer_set_update_proc (v : LayerVar) (p : UpdateProc)
  | layer_add_child (child : LayerVar)
  | gbitmap_create_with_resource (b : BitmapVar) (r : ResourceId)
  | bitmap_layer_set_bitmap (v : LayerVar) (b : BitmapVar)
  | text_layer_set_background_color (v : LayerVar) (c : GColor)
  | text_layer_set_text_color (v : LayerVar) (c : GColor)
  | text_layer_set_font (v : LayerVar) (f : FontKey)
  | text_layer_set_text_alignment_center (v : LayerVar)
  | text_layer_set_text (v : LayerVar) (buf : TextBuffer)
  | layer_mark_dirty (v : LayerVar)
  | layer_set_hidden (v : LayerVar) (hidden : Bool)
  | text_layer_destroy (v : LayerVar)
  | bitmap_layer_destroy (v : LayerVar)
  | layer_destroy (v : LayerVar)
  | clock_is_24h_style
  | battery_state_service_peek
  | battery_state_service_subscribe
  | battery_state_service_unsubscribe
  | bluetooth_connection_service_peek
  | bluetooth_connection_service_subscribe
  | bluetooth_connection_service_unsubscribe
  | tick_timer_service_subscribe (units : Nat)
  | tick_timer_service_unsubscribe
deriving DecidableEq, Repr

/-- A drawing command issued on a graphics context by a layer update procedure. -/
inductive DrawCmd
  | graphics_context_set_fill_color (c : GColor)
  | graphics_fill_rect (r : GRect) (radius : Nat)
deriving DecidableEq, Repr

/-- Tracked attributes of one layer object. -/
structure LayerState where
  live : Bool
  frame : GRect
  hidden : Bool
  markedDirty : Bool
  text : Option TextBuffer
  updateProc : Option UpdateProc
  attached : Bool
deriving DecidableEq, Repr

/-- A layer as `layer_create` and its siblings return it. -/
def LayerState.fresh (frame : GRect) : LayerState :=
  { live := true, frame := frame, hidden := false, markedDirty := false, text := none,
    updateProc := none, attached := false }

/-- Results of the outside-world reads at the moment of a call. -/
structure Env where
  now : Tm
  is24h : Bool
  battery : BatteryChargeState
  bluetooth : Bool
deriving DecidableEq, Repr

/-- Whole program state: the statics of `Gui.c`, the SDK objects they point to, the event
service registrations and the log of SDK calls. -/
structure World where
  u8BatteryLevelWidth : Nat
  timeBuffer : Option String
  dateBuffer : Option String
  windowLive : Bool
  windowHandlers : Bool
  windowLoaded : Bool
  layers : LayerVar → LayerState
  bitmaps : BitmapVar → Bool
  batterySubscribed : Bool
  bluetoothSubscribed : Bool
  tickSubscribed : Option Nat
  calls : List Call

/-- State at program start: zeroed statics, `"00:00"` in the time buffer, no SDK object. -/
def World.start : World :=
  { u8BatteryLevelWidth := 0
    timeBuffer := some "00:00"
    dateBuffer := some ""
    windowLive := false
    windowHandlers := false
    windowLoaded := false
    layers := fun _ =>
      { live := false, frame := ⟨0, 0, 0, 0⟩, hidden := false, markedDirty := false,
        text := none, updateProc := none, attached := false }
    bitmaps := fun _ => false
    batterySubscribed := false
    bluetoothSubscribed := false
    tickSubscribed := none
    calls := [] }

/-- Append one SDK call to the log. -/
def World.log (w : World) (c : Call) : World :=
  { w with calls := w.calls ++ [c] }

/-- Change the tracked attributes of one layer. -/
def World.modLayer (w : World) (v : LayerVar) (f : LayerState → LayerState) : World :=
  { w with layers := fun u => if u = v then f (w.layers u) else w.layers u }

/-- The SDK calls a state transformer appends, observed from an empty log. -/
def emitted (f : World → World) (w : World) : List Call :=
  (f { w with calls := [] }).calls

/-- Text a text layer shows: the contents of the buffer bound by `text_layer_set_text`
(the layer keeps the pointer, not a copy); `none` when no buffer is bound or the buffer
contents are indeterminate. -/
def World.shownText (w : World) (v : LayerVar) : Option String :=
  match (w.layers v).text with
  | some TextBuffer.timeBuffer => w.timeBuffer
  | some TextBuffer.dateBuffer => w.dateBuffer
  | none => none

/-! ## SDK operations -/

/-- SDK `layer_create`. -/
def layer_create (v : LayerVar) (frame : GRect) (w : World) : World :=
  (w.modLayer v fun _ => LayerState.fresh frame).log (Call.layer_create v frame)

/-- SDK `bitmap_layer_create`. -/
def bitmap_layer_create (v : LayerVar) (frame : GRect) (w : World) : World :=
  (w.modLayer v fun _ => LayerState.fresh frame).log (Call.bitmap_layer_create v frame)

/-- SDK `text_layer_create`. -/
def text_layer_create (v : LayerVar) (frame : GRect) (w : World) : World :=
  (w.modLayer v fun _ => LayerState.fresh frame).log (Call.text_layer_create v frame)

/-- SDK `layer_set_update_proc`. -/
def layer_set_update_proc (v : LayerVar) (p : UpdateProc) (w : World) : World :=
  (w.modLayer v fun s => { s with updateProc := some p }).log (Call.layer_set_update_proc v p)

/-- SDK `layer_add_child(window_get_root_layer(wWindow), child)`. -/
def layer_add_child (child : LayerVar) (w : World) : World :=
  (w.modLayer child fun s => { s with attached := true }).log (Call.layer_add_child child)

/-- SDK `gbitmap_create_with_resource`. -/
def gbitmap_create_with_resource (b : BitmapVar) (r : ResourceId) (w : World) : World :=
  { w with bitmaps := fun c => if c = b then true else w.bitmaps c }.log
    (Call.gbitmap_create_with_resource b r)

/-- SDK `layer_mark_dirty`: records the explicit redraw request on that layer. -/
def layer_mark_dirty (v : LayerVar) (w : World) : World :=
  (w.modLayer v fun s => { s with markedDirty := true }).log (Call.layer_mark_dirty v)

/-- SDK `layer_set_hidden`. -/
def layer_set_hidden (v : LayerVar) (hidden : Bool) (w : World) : World :=
  (w.modLayer v fun s => { s with hidden := hidden }).log (Call.layer_set_hidden v hidden)

/-- SDK `text_layer_set_text`: binds the buffer to the layer. -/
def text_layer_set_text (v : LayerVar) (buf : TextBuffer) (w : World) : World :=
  (w.modLayer v fun s => { s with text := some buf }).log (Call.text_layer_set_text v buf)

/-- SDK `text_layer_destroy`. -/
def text_layer_destroy (v : LayerVar) (w : World) : World :=
  (w.modLayer v fun s => { s with live := false }).log (Call.text_layer_destroy v)

/-- SDK `bitmap_layer_destroy`. -/
def bitmap_layer_destroy (v : LayerVar) (w : World) : World :=
  (w.modLayer v fun s => { s with live := false }).log (Call.bitmap_layer_destroy v)

/-- SDK `layer_destroy`. -/
def layer_destroy (v : LayerVar) (w : World) : World :=
  (w.modLayer v fun s => { s with live := false }).log (Call.layer_destroy v)

/-! ## ISO C `strftime`, restricted to the conversions the program uses -/

/-- Full month names of the C locale, indexed by `tm_mon`. -/
def monthNames : List String :=
  ["January", "February", "March", "April", "May", "June", "July", "August", "September",
   "October", "November", "December"]

/-- Decimal number in a field of two, padded on the left with `pad`. -/
def conv2 (pad : Char) (n : Nat) : List Char :=
  if n < 10 then pad :: Nat.toDigits 10 n else Nat.toDigits 10 n

/-- Replacement text of one conversion specifier. -/
def convSpec (c : Char) (tm : Tm) : List Char :=
  if c = 'H' then conv2 '0' tm.tm_hour
  else if c = 'I' then conv2 '0' (if tm.tm_hour % 12 = 0 then 12 else tm.tm_hour % 12)
  else if c = 'M' then conv2 '0' tm.tm_min
  else if c = 'B' then (monthNames.getD tm.tm_mon "?").toList
  else if c = 'e' then conv2 ' ' tm.tm_mday
  else if c = '%' then ['%']
  else ['%', c]

/-- Expansion of a format string: conversion specifiers are replaced, other characters are
copied. -/
def expandFormat : List Char → Tm → List Char
  | [], _ => []
  | [c], _ => [c]
  | c :: d :: rest, tm =>
    if c = '%' then convSpec d tm ++ expandFormat rest tm
    else c :: expandFormat (d :: rest) tm

/-- ISO C `strftime(s, maxsize, format, tm)`: `some` text when the expansion and its
terminator fit in `maxsize` bytes, `none` (array contents indeterminate) otherwise. -/
def strftime (maxsize : Nat) (format : String) (tm : Tm) : Option String :=
  let out := expandFormat format.toList tm
  if out.length + 1 ≤ maxsize then some (String.mk out) else none

/-! ## Gui.c: update entry points -/

/-- `void GuiUpdateBatteryLevel(uint8_t u8BatteryLevelTenths, bool bIsCharging)` -/
def GuiUpdateBatteryLevel (u8BatteryLevelTenths : Nat) (bIsCharging : Bool) (w : World) :
    World :=
  let w := { w with u8BatteryLevelWidth := u8BatteryLevelTenths % 256 }
  let w := layer_mark_dirty LayerVar.tBatteryLevelLayer w
  layer_set_hidden LayerVar.tBatteryChargingLayer (!bIsCharging) w

/-- `void GuiUpdateConnectionStatus(bool bIsConnected)` -/
def GuiUpdateConnectionStatus (bIsConnected : Bool) (w : World) : World :=
  layer_set_hidden LayerVar.tBluetoothConnectedLayer (!bIsConnected) w

/-- `void GuiUpdateTime(void)` -/
def GuiUpdateTime (env : Env) (w : World) : World :=
  let tCurrentTime := env.now
  let w := w.log Call.clock_is_24h_style
  let w :=
    if env.is24h = true then
      { w with timeBuffer := strftime TIME_BUFFER_SIZE "%H:%M" tCurrentTime }
    else
      { w with timeBuffer := strftime TIME_BUFFER_SIZE "%I:%M" tCurrentTime }
  text_layer_set_text LayerVar.tTimeLayer TextBuffer.timeBuffer w

/-- `void GuiUpdateDate(void)` -/
def GuiUpdateDate (env : Env) (w : World) : World :=
  let tCurrentTime := env.now
  let w := { w with dateBuffer := strftime DATE_BUFFER_LENGTH "%B %e" tCurrentTime }
  text_layer_set_text LayerVar.tDateLayer TextBuffer.dateBuffer w

/-! ## Battery.c, Bluetooth.c: event handlers -/

/-- `static void BatteryStateUpdateHandler(BatteryChargeState tsChargeState)` -/
def BatteryStateUpdateHandler (tsChargeState : BatteryChargeState) (w : World) : World :=
  GuiUpdateBatteryLevel (tsChargeState.charge_percent / 10) tsChargeState.is_charging w

/-- `static void BluetoothConnectionUpdateHandler(bool bIsConnected)` -/
def BluetoothConnectionUpdateHandler (bIsConnected : Bool) (w : World) : World :=
  GuiUpdateConnectionStatus bIsConnected w

/-! ## Gui.c: window handlers and layer update procedures -/

/-- `static void MainWindowLoad(Window *wWindow)` -/
def MainWindowLoad (w : World) : World :=
  /- Create and add the background (drawing) layer -/
  let w := layer_create LayerVar.tBackgroundLayer ⟨0, 0, 144, 168⟩ w
  let w := layer_set_update_proc LayerVar.tBackgroundLayer UpdateProc.BackgroundLayerUpdate w
  let w := layer_add_child LayerVar.tBackgroundLayer w
  /- Create and add a battery shell bitmap layer -/
  let w := gbitmap_create_with_resource BitmapVar.tBatteryShellBitmap
    ResourceId.RESOURCE_ID_IMAGE_BATTERY w
  let w := bitmap_layer_create LayerVar.tBatteryShellLayer ⟨126, 4, 15, 8⟩ w
  let w := w.log (Call.bitmap_layer_set_bitmap LayerVar.tBatteryShellLayer
    BitmapVar.tBatteryShellBitmap)
  let w := layer_add_child LayerVar.tBatteryShellLayer w
  /- Create and add the battery level layer -/
  let w := layer_create LayerVar.tBatteryLevelLayer ⟨128, 6, 10, 4⟩ w
  let w := layer_set_update_proc LayerVar.tBatteryLevelLayer
    UpdateProc.BatteryLevelLayerUpdate w
  let w := layer_add_child LayerVar.tBatteryLevelLayer w
  /- Create the battery charging symbol -/
  let w := gbitmap_create_with_resource BitmapVar.tBatteryChargingBitmap
    ResourceId.RESOURCE_ID_IMAGE_CHARGING w
  let w := bitmap_layer_create LayerVar.tBatteryChargingLayer ⟨117, 4, 7, 8⟩ w
  let w := w.log (Call.bitmap_layer_set_bitmap LayerVar.tBatteryChargingLayer
    BitmapVar.tBatteryChargingBitmap)
  let w := layer_add_child LayerVar.tBatteryChargingLayer w
  /- Create the bluetooth connected symbol -/
  let w := gbitmap_create_with_resource BitmapVar.tBluetoothConnectedBitmap
    ResourceId.RESOURCE_ID_IMAGE_BLUETOOTH w
  let w := bitmap_layer_create LayerVar.tBluetoothConnectedLayer ⟨3, 3, 7, 10⟩ w
  let w := w.log (Call.bitmap_layer_set_bitmap LayerVar.tBluetoothConnectedLayer
    BitmapVar.tBluetoothConnectedBitmap)
  let w := layer_add_child LayerVar.tBluetoothConnectedLayer w
  /- Create and add a time text layer -/
  let w := text_layer_create LayerVar.tTimeLayer ⟨0, 52, 144, 50⟩ w
  let w := w.log (Call.text_layer_set_background_color LayerVar.tTimeLayer GColor.GColorBlack)
  let w := w.log (Call.text_layer_set_text_color LayerVar.tTimeLayer GColor.GColorWhite)
  let w := w.log (Call.text_layer_set_font LayerVar.tTimeLayer
    FontKey.FONT_KEY_BITHAM_42_MEDIUM_NUMBERS)
  let w := w.log (Call.text_layer_set_text_alignment_center LayerVar.tTimeLayer)
  let w := layer_add_child LayerVar.tTimeLayer w
  /- Create and add a date text layer -/
  let w := text_layer_create LayerVar.tDateLayer ⟨0, 96, 144, 30⟩ w
  let w := w.log (Call.text_layer_set_background_color LayerVar.tDateLayer GColor.GColorBlack)
  let w := w.log (Call.text_layer_set_text_color LayerVar.tDateLayer GColor.GColorWhite)
  let w := w.log (Call.text_layer_set_font LayerVar.tDateLayer FontKey.FONT_KEY_GOTHIC_24)
  let w := w.log (Call.text_layer_set_text_alignment_center LayerVar.tDateLayer)
  layer_add_child LayerVar.tDateLayer w

/-- `static void MainWindowUnload(Window *wWindow)` -/
def MainWindowUnload (w : World) : World :=
  /- Destroy the text layers -/
  let w := text_layer_destroy LayerVar.tTimeLayer w
  /- Destroy the status layers -/
  let w := bitmap_layer_destroy LayerVar.tBluetoothConnectedLayer w
  let w := bitmap_layer_destroy LayerVar.tBatteryChargingLayer w
  let w := layer_destroy LayerVar.tBatteryLevelLayer w
  let w := bitmap_layer_destroy LayerVar.tBatteryShellLayer w
  /- Destroy the background layer -/
  layer_destroy LayerVar.tBackgroundLayer w

/-- `static void BackgroundLayerUpdate(Layer *tLayer, GContext *tContext)`: the drawing
commands issued on the context. -/
def BackgroundLayerUpdate (_w : World) : List DrawCmd :=
  [DrawCmd.graphics_context_set_fill_color GColor.GColorBlack,
   DrawCmd.graphics_fill_rect ⟨0, 0, 144, 168⟩ 0]

/-- `static void BatteryLevelLayerUpdate(Layer *tLayer, GContext *tContext)`: the drawing
commands issued on the context. -/
def BatteryLevelLayerUpdate (w : World) : List DrawCmd :=
  if w.u8BatteryLevelWidth > 0 then
    [DrawCmd.graphics_context_set_fill_color GColor.GColorWhite,
     DrawCmd.graphics_fill_rect ⟨0, 0, (w.u8BatteryLevelWidth : Int), 4⟩ 0]
  else
    []

/-- Rectangle `r`, given in the coordinates of a layer whose frame is `frame`, stays inside
that frame. -/
def GRect.insideLayer (r frame : GRect) : Prop :=
  0 ≤ r.x ∧ 0 ≤ r.y ∧ 0 ≤ r.w ∧ 0 ≤ r.h ∧ r.x + r.w ≤ frame.w ∧ r.y + r.h ≤ frame.h

instance (r frame : GRect) : Decidable (r.insideLayer frame) := by
  unfold GRect.insideLayer
  infer_instance

/-! ## SDK window operations (they call back into the handlers of Gui.c) -/

/-- SDK `window_create`. -/
def window_create (w : World) : World :=
  { w with windowLive := true, windowLoaded := false, windowHandlers := false }.log
    Call.window_create

/-- SDK `window_set_window_handlers` with
`{ .load = MainWindowLoad, .unload = MainWindowUnload }`. -/
def window_set_window_handlers (w : World) : World :=
  { w with windowHandlers := true }.log Call.window_set_window_handlers

/-- SDK `window_stack_push`: a window that is not loaded yet is loaded, which runs its
`.load` handler. -/
def window_stack_push (animated : Bool) (w : World) : World :=
  let w := w.log (Call.window_stack_push animated)
  if w.windowLoaded = true then w
  else
    let w := { w with windowLoaded := true }
    if w.windowHandlers = true then MainWindowLoad w else w

/-- SDK `window_destroy`: a loaded window is unloaded first, which runs its `.unload`
handler. -/
def window_destroy (w : World) : World :=
  let w := w.log Call.window_destroy
  let w :=
    if w.windowLoaded = true then
      let w := { w with windowLoaded := false }
      if w.windowHandlers = true then MainWindowUnload w else w
    else w
  { w with windowLive := false }

/-! ## Gui.c: lifecycle -/

/-- `void GuiInit(void)` -/
def GuiInit (env : Env) (w : World) : World :=
  let w := window_create w
  let w := window_set_window_handlers w
  let w := window_stack_push true w
  let w := GuiUpdateTime env w
  GuiUpdateDate env w

/-- `void GuiDeinit(void)` -/
def GuiDeinit (w : World) : World :=
  window_destroy w

/-! ## Battery.c, Bluetooth.c, Timer.c -/

/-- `void BatteryInit(void)` -/
def BatteryInit (env : Env) (w : World) : World :=
  let w := w.log Call.battery_state_service_peek
  let w := BatteryStateUpdateHandler env.battery w
  { w with batterySubscribed := true }.log Call.battery_state_service_subscribe

/-- `void BatteryDeinit(void)` -/
def BatteryDeinit (w : World) : World :=
  { w with batterySubscribed := false }.log Call.battery_state_service_unsubscribe

/-- `void BluetoothInit(void)` -/
def BluetoothInit (env : Env) (w : World) : World :=
  let w := w.log Call.bluetooth_connection_service_peek
  let w := BluetoothConnectionUpdateHandler env.bluetooth w
  { w with bluetoothSubscribed := true }.log Call.bluetooth_connection_service_subscribe

/-- `void BluetoothDeinit(void)` -/
def BluetoothDeinit (w : World) : World :=
  { w with bluetoothSubscribed := false }.log Call.bluetooth_connection_service_unsubscribe

/-- `static void TickTimerHandler(struct tm *tTickTime, TimeUnits tUnitsChanged)` -/
def TickTimerHandler (env : Env) (_tTickTime : Tm) (tUnitsChanged : Nat) (w : World) : World :=
  let w := GuiUpdateTime env w
  if tUnitsChanged &&& DAY_UNIT ≠ 0 then GuiUpdateDate env w else w

/-- `void TimerInit(void)` -/
def TimerInit (w : World) : World :=
  { w with tickSubscribed := some MINUTE_UNIT }.log
    (Call.tick_timer_service_subscribe MINUTE_UNIT)

/-- `void TimerDeinit(void)` -/
def TimerDeinit (w : World) : World :=
  { w with tickSubscribed := none }.log Call.tick_timer_service_unsubscribe

/-! ## main.c -/

/-- `static void Init(void)` -/
def Init (env : Env) (w : World) : World :=
  let w := GuiInit env w
  let w := BatteryInit env w
  let w := BluetoothInit env w
  TimerInit w

/-- `static void Deinit(void)` -/
def Deinit (w : World) : World :=
  let w := TimerDeinit w
  let w := BluetoothDeinit w
  let w := BatteryDeinit w
  GuiDeinit w

/-- An event an SDK service can deliver to the application. -/
inductive Event
  | battery (state : BatteryChargeState)
  | bluetooth (connected : Bool)
  | tick (tickTime : Tm) (unitsChanged : Nat)
deriving DecidableEq, Repr

/-- Delivery of one event by the SDK event loop: the handler registered with the service
runs; a service without a subscription delivers nothing. -/
def deliver (env : Env) (e : Event) (w : World) : World :=
  match e with
  | Event.battery state =>
    if w.batterySubscribed = true then BatteryStateUpdateHandler state w else w
  | Event.bluetooth connected =>
    if w.bluetoothSubscribed = true then BluetoothConnectionUpdateHandler connected w else w
  | Event.tick tickTime unitsChanged =>
    match w.tickSubscribed with
    | some units =>
      if unitsChanged &&& units ≠ 0 then TickTimerHandler env tickTime unitsChanged w else w
    | none => w

/-! ## Classification of SDK calls -/

/-- Calls that cancel an event-source subscription. -/
def Call.isUnsubscribe : Call → Bool
  | Call.tick_timer_service_unsubscribe => true
  | Call.bluetooth_connection_service_unsubscribe => true
  | Call.battery_state_service_unsubscribe => true
  | _ => false

/-- Calls that register an event-source subscription. -/
def Call.isSubscribe : Call → Bool
  | Call.tick_timer_service_subscribe _ => true
  | Call.bluetooth_connection_service_subscribe => true
  | Call.battery_state_service_subscribe => true
  | _ => false

/-- Calls that destroy the window or one of its layers. -/
def Call.isDestroy : Call → Bool
  | Call.window_destroy => true
  | Call.text_layer_destroy _ => true
  | Call.bitmap_layer_destroy _ => true
  | Call.layer_destroy _ => true
  | _ => false

/-- Snapshot reads of an event source. -/
def Call.isSnapshot : Call → Bool
  | Call.battery_state_service_peek => true
  | Call.bluetooth_connection_service_peek => true
  | _ => false

/-- Calls that put a rendered time or date text on a text layer. -/
def Call.isTextRender : Call → Bool
  | Call.text_layer_set_text _ _ => true
  | _ => false

/-- Explicit redraw requests. -/
def Call.isMarkDirty : Call → Bool
  | Call.layer_mark_dirty _ => true
  | _ => false

/-- The battery snapshot read. -/
def Call.isBatteryPeek : Call → Bool
  | Call.battery_state_service_peek => true
  | _ => false

/-- The battery subscription. -/
def Call.isBatterySubscribe : Call → Bool
  | Call.battery_state_service_subscribe => true
  | _ => false

/-- The connectivity snapshot read. -/
def Call.isBluetoothPeek : Call → Bool
  | Call.bluetooth_connection_service_peek => true
  | _ => false

/-- The connectivity subscription. -/
def Call.isBluetoothSubscribe : Call → Bool
  | Call.bluetooth_connection_service_subscribe => true
  | _ => false

/-- The calls of `Init` that the startup ordering is about: renders, snapshots, subscriptions. -/
def Call.isStartupStep (c : Call) : Bool :=
  c.isTextRender || c.isSnapshot || c.isSubscribe

/-- In the trace `tr`, every call satisfying `p` stands at an earlier position than every
call satisfying `q`. -/
def AllBefore (p q : Call → Bool) (tr : List Call) : Prop :=
  ∀ (i j : Nat) (a b : Call),
    tr[i]? = some a → tr[j]? = some b → p a = true → q b = true → i < j

/-- The seven layers `MainWindowLoad` creates, in creation order. -/
def loadedLayers : List LayerVar :=
  [LayerVar.tBackgroundLayer, LayerVar.tBatteryShellLayer, LayerVar.tBatteryLevelLayer,
   LayerVar.tBatteryChargingLayer, LayerVar.tBluetoothConnectedLayer, LayerVar.tTimeLayer,
   LayerVar.tDateLayer]

/-- The layers that are live in a state. -/
def World.liveLayers (w : World) : List LayerVar :=
  loadedLayers.filter fun v => (w.layers v).live

/-- Sample environment: 5 January, 09:05, 12h clock style, battery at 55 percent and
charging, Bluetooth connected. -/
def sampleEnv : Env :=
  { now := { tm_min := 5, tm_hour := 9, tm_mday := 5, tm_mon := 0 }
    is24h := false
    battery := { charge_percent := 55, is_charging := true, is_plugged := true }
    bluetooth := true }

/-- The date text as the specification words it: full month name, one space, the day of the
month in decimal without padding, cut to the 11 characters the buffer can hold. -/
def specDateText (tm : Tm) : String :=
  String.mk ((monthNames.getD tm.tm_mon "?" ++ " " ++ toString tm.tm_mday).toList.take 11)

/-- An update entry point `f` is rejected in state `w` when calling it changes nothing: no
static is written and no SDK call is issued.  (The entry points return `void` and contain no
assertion, so leaving the state alone is the only way they could refuse a call.) -/
def Rejected (f : World → World) (w : World) : Prop :=
  f w = w

/-! ## Battery level and connection status updates -/

/-- C1: for every charge percent in [0,100], the level `BatteryStateUpdateHandler` passes to
`GuiUpdateBatteryLevel`, which is what ends up stored as the battery bar width, is
`percent / 10` with truncating division (so `10 * level ≤ percent < 10 * (level + 1)`) and
lies in [0,10]; 0 gives 0, 9 gives 0, 10 gives 1 and 100 gives 10. -/
theorem C1_battery_level_is_percent_div_10 (w : World) (cs : BatteryChargeState)
    (h : cs.charge_percent ≤ 100) :
    BatteryStateUpdateHandler cs w
        = GuiUpdateBatteryLevel (cs.charge_percent / 10) cs.is_charging w
      ∧ (BatteryStateUpdateHandler cs w).u8BatteryLevelWidth = cs.charge_percent / 10
      ∧ 10 * (BatteryStateUpdateHandler cs w).u8BatteryLevelWidth ≤ cs.charge_percent
      ∧ cs.charge_percent < 10 * ((BatteryStateUpdateHandler cs w).u8BatteryLevelWidth + 1)
      ∧ (BatteryStateUpdateHandler cs w).u8BatteryLevelWidth ≤ 10
      ∧ (cs.charge_percent = 0 → (BatteryStateUpdateHandler cs w).u8BatteryLevelWidth = 0)
      ∧ (cs.charge_percent = 9 → (BatteryStateUpdateHandler cs w).u8BatteryLevelWidth = 0)
      ∧ (cs.charge_percent = 10 → (BatteryStateUpdateHandler cs w).u8BatteryLevelWidth = 1)
      ∧ (cs.charge_percent = 100 → (BatteryStateUpdateHandler cs w).u8BatteryLevelWidth = 10) := by
  have hw : (BatteryStateUpdateHandler cs w).u8BatteryLevelWidth = cs.charge_percent / 10 := by
    have hlt : cs.charge_percent / 10 < 256 := by omega
    simp [BatteryStateUpdateHandler, GuiUpdateBatteryLevel, layer_mark_dirty, layer_set_hidden,
      World.modLayer, World.log, Nat.mod_eq_of_lt hlt]
  refine ⟨rfl, hw, ?_, ?_, ?_, ?_, ?_, ?_, ?_⟩ <;> rw [hw] <;> omega

/-- Witness for C1 at 100 percent, not charging: the stored width is 10. -/
theorem C1_battery_level_is_percent_div_10_witness :
    (BatteryStateUpdateHandler ⟨100, false, false⟩ World.start).u8BatteryLevelWidth = 100 / 10 :=
  (C1_battery_level_is_percent_div_10 World.start ⟨100, false, false⟩ (by decide)).2.1

/-- C2: for every battery event and every prior state, after `BatteryStateUpdateHandler` the
charging icon is visible exactly when `is_charging` holds; the only redraw request issued is
one `layer_mark_dirty` on the battery level layer, so the dirty flag of every other layer is
as before; the hidden flag of every layer but the charging icon (the connectivity icon among
them), the time text and the date text are unchanged; the event (55, true) gives width 5 with
the charging icon visible. -/
theorem C2_battery_event_frame (w : World) (cs : BatteryChargeState) :
    (((BatteryStateUpdateHandler cs w).layers LayerVar.tBatteryChargingLayer).hidden = false
        ↔ cs.is_charging = true)
      ∧ (emitted (BatteryStateUpdateHandler cs) w).filter Call.isMarkDirty
          = [Call.layer_mark_dirty LayerVar.tBatteryLevelLayer]
      ∧ ((BatteryStateUpdateHandler cs w).layers LayerVar.tBatteryLevelLayer).markedDirty = true
      ∧ (∀ v, v ≠ LayerVar.tBatteryLevelLayer →
          ((BatteryStateUpdateHandler cs w).layers v).markedDirty = (w.layers v).markedDirty)
      ∧ (∀ v, v ≠ LayerVar.tBatteryChargingLayer →
          ((BatteryStateUpdateHandler cs w).layers v).hidden = (w.layers v).hidden)
      ∧ ((BatteryStateUpdateHandler cs w).layers LayerVar.tBluetoothConnectedLayer).hidden
          = (w.layers LayerVar.tBluetoothConnectedLayer).hidden
      ∧ (BatteryStateUpdateHandler cs w).shownText LayerVar.tTimeLayer
          = w.shownText LayerVar.tTimeLayer
      ∧ (BatteryStateUpdateHandler cs w).shownText LayerVar.tDateLayer
          = w.shownText LayerVar.tDateLayer
      ∧ (BatteryStateUpdateHandler ⟨55, true, cs.is_plugged⟩ w).u8BatteryLevelWidth = 5
      ∧ ((BatteryStateUpdateHandler ⟨55, true, cs.is_plugged⟩ w).layers
          LayerVar.tBatteryChargingLayer).hidden = false := by
  refine ⟨?_, ?_, ?_, ?_, ?_, ?_, ?_, ?_, ?_, ?_⟩
  · cases hc : cs.is_charging <;>
      simp [BatteryStateUpdateHandler, GuiUpdateBatteryLevel, layer_mark_dirty, layer_set_hidden,
        World.modLayer, World.log, hc]
  · simp [emitted, BatteryStateUpdateHandler, GuiUpdateBatteryLevel, layer_mark_dirty,
      layer_set_hidden, World.modLayer, World.log, Call.isMarkDirty]
  · simp [BatteryStateUpdateHandler, GuiUpdateBatteryLevel, layer_mark_dirty, layer_set_hidden,
      World.modLayer, World.log]
  · intro v hv
    cases v <;>
      simp_all [BatteryStateUpdateHandler, GuiUpdateBatteryLevel, layer_mark_dirty,
        layer_set_hidden, World.modLayer, World.log]
  · intro v hv
    cases v <;>
      simp_all [BatteryStateUpdateHandler, GuiUpdateBatteryLevel, layer_mark_dirty,
        layer_set_hidden, World.modLayer, World.log]
  · simp [BatteryStateUpdateHandler, GuiUpdateBatteryLevel, layer_mark_dirty, layer_set_hidden,
      World.modLayer, World.log]
  · simp [World.shownText, BatteryStateUpdateHandler, GuiUpdateBatteryLevel, layer_mark_dirty,
      layer_set_hidden, World.modLayer, World.log]
  · simp [World.shownText, BatteryStateUpdateHandler, GuiUpdateBatteryLevel, layer_mark_dirty,
      layer_set_hidden, World.modLayer, World.log]
  · simp [BatteryStateUpdateHandler, GuiUpdateBatteryLevel, layer_mark_dirty, layer_set_hidden,
      World.modLayer, World.log]
  · simp [BatteryStateUpdateHandler, GuiUpdateBatteryLevel, layer_mark_dirty, layer_set_hidden,
      World.modLayer, World.log]

/-- Witness for C2: on the state reached by `Init`, a (55, true) event leaves the dirty flag of
the time layer as it was. -/
theorem C2_battery_event_frame_witness :
    ((BatteryStateUpdateHandler ⟨55, true, true⟩
        (Init ⟨⟨5, 9, 5, 0⟩, true, ⟨80, false, false⟩, true⟩ World.start)).layers
          LayerVar.tTimeLayer).markedDirty
      = ((Init ⟨⟨5, 9, 5, 0⟩, true, ⟨80, false, false⟩, true⟩ World.start).layers
          LayerVar.tTimeLayer).markedDirty :=
  (C2_battery_event_frame (Init ⟨⟨5, 9, 5, 0⟩, true, ⟨80, false, false⟩, true⟩ World.start)
    ⟨55, true, true⟩).2.2.2.1 LayerVar.tTimeLayer (by decide)

/-- C3: for every prior state and every `bIsConnected`, after `GuiUpdateConnectionStatus` the
connectivity icon is hidden when `bIsConnected` is false and visible when it is true; the
only SDK call issued is that one `layer_set_hidden`; the battery width, the hidden flag of
every other layer (the charging icon among them), the time and date text, both buffers, the
text bindings, every dirty flag, the bitmaps, the window flags and the subscriptions are
unchanged, and no `layer_mark_dirty` is issued.  The Bluetooth event handler is this
function. -/
theorem C3_connection_status_frame (w : World) (bIsConnected : Bool) :
    ((GuiUpdateConnectionStatus bIsConnected w).layers
        LayerVar.tBluetoothConnectedLayer).hidden = !bIsConnected
      ∧ emitted (GuiUpdateConnectionStatus bIsConnected) w
          = [Call.layer_set_hidden LayerVar.tBluetoothConnectedLayer (!bIsConnected)]
      ∧ (emitted (GuiUpdateConnectionStatus bIsConnected) w).filter Call.isMarkDirty = []
      ∧ (GuiUpdateConnectionStatus bIsConnected w).u8BatteryLevelWidth = w.u8BatteryLevelWidth
      ∧ (∀ v, v ≠ LayerVar.tBluetoothConnectedLayer →
          (GuiUpdateConnectionStatus bIsConnected w).layers v = w.layers v)
      ∧ ((GuiUpdateConnectionStatus bIsConnected w).layers LayerVar.tBatteryChargingLayer).hidden
          = (w.layers LayerVar.tBatteryChargingLayer).hidden
      ∧ (∀ v, ((GuiUpdateConnectionStatus bIsConnected w).layers v).markedDirty
          = (w.layers v).markedDirty)
      ∧ (∀ v, ((GuiUpdateConnectionStatus bIsConnected w).layers v).text = (w.layers v).text)
      ∧ (∀ v, ((GuiUpdateConnectionStatus bIsConnected w).layers v).live = (w.layers v).live)
      ∧ (GuiUpdateConnectionStatus bIsConnected w).timeBuffer = w.timeBuffer
      ∧ (GuiUpdateConnectionStatus bIsConnected w).dateBuffer = w.dateBuffer
      ∧ (GuiUpdateConnectionStatus bIsConnected w).bitmaps = w.bitmaps
      ∧ (GuiUpdateConnectionStatus bIsConnected w).windowLive = w.windowLive
      ∧ (GuiUpdateConnectionStatus bIsConnected w).windowLoaded = w.windowLoaded
      ∧ (GuiUpdateConnectionStatus bIsConnected w).batterySubscribed = w.batterySubscribed
      ∧ (GuiUpdateConnectionStatus bIsConnected w).bluetoothSubscribed = w.bluetoothSubscribed
      ∧ (GuiUpdateConnectionStatus bIsConnected w).tickSubscribed = w.tickSubscribed
      ∧ (GuiUpdateConnectionStatus bIsConnected w).shownText LayerVar.tTimeLayer
          = w.shownText LayerVar.tTimeLayer
      ∧ (GuiUpdateConnectionStatus bIsConnected w).shownText LayerVar.tDateLayer
          = w.shownText LayerVar.tDateLayer
      ∧ BluetoothConnectionUpdateHandler bIsConnected w
          = GuiUpdateConnectionStatus bIsConnected w := by
  refine ⟨?_, ?_, ?_, ?_, ?_, ?_, ?_, ?_, ?_, ?_, ?_, rfl, rfl, rfl, rfl, rfl, rfl, ?_, ?_,
    rfl⟩
  · simp [GuiUpdateConnectionStatus, layer_set_hidden, World.modLayer, World.log]
  · simp [emitted, GuiUpdateConnectionStatus, layer_set_hidden, World.modLayer, World.log]
  · simp [emitted, GuiUpdateConnectionStatus, layer_set_hidden, World.modLayer, World.log,
      Call.isMarkDirty]
  · simp [GuiUpdateConnectionStatus, layer_set_hidden, World.modLayer, World.log]
  · intro v hv
    simp [GuiUpdateConnectionStatus, layer_set_hidden, World.modLayer, World.log, hv]
  · simp [GuiUpdateConnectionStatus, layer_set_hidden, World.modLayer, World.log]
  · intro v
    cases v <;> simp [GuiUpdateConnectionStatus, layer_set_hidden, World.modLayer, World.log]
  · intro v
    cases v <;> simp [GuiUpdateConnectionStatus, layer_set_hidden, World.modLayer, World.log]
  · intro v
    cases v <;> simp [GuiUpdateConnectionStatus, layer_set_hidden, World.modLayer, World.log]
  · simp [GuiUpdateConnectionStatus, layer_set_hidden, World.modLayer, World.log]
  · simp [GuiUpdateConnectionStatus, layer_set_hidden, World.modLayer, World.log]
  · simp [World.shownText, GuiUpdateConnectionStatus, layer_set_hidden, World.modLayer,
      World.log]
  · simp [World.shownText, GuiUpdateConnectionStatus, layer_set_hidden, World.modLayer,
      World.log]

/-- Witness for C3: on the state reached by `Init`, a disconnect leaves the time layer as it
was. -/
theorem C3_connection_status_frame_witness :
    (GuiUpdateConnectionStatus false
        (Init ⟨⟨5, 9, 5, 0⟩, true, ⟨80, false, false⟩, true⟩ World.start)).layers
          LayerVar.tTimeLayer
      = (Init ⟨⟨5, 9, 5, 0⟩, true, ⟨80, false, false⟩, true⟩ World.start).layers
          LayerVar.tTimeLayer :=
  (C3_connection_status_frame (Init ⟨⟨5, 9, 5, 0⟩, true, ⟨80, false, false⟩, true⟩ World.start)
    false).2.2.2.2.1 LayerVar.tTimeLayer (by decide)

/-! ## Battery bar drawing -/

/-- C4: for every stored width `w`, `BatteryLevelLayerUpdate` issues, when `w > 0`, the white
fill colour followed by exactly one `graphics_fill_rect` of `GRect(0, 0, w, 4)`, and issues
no drawing command when `w = 0`; the layer it is installed on by `MainWindowLoad` is the
10x4 layer at (128, 6), and for `w ≤ 10` every rectangle it fills lies inside that layer. -/
theorem C4_battery_bar_drawing (w : World) :
    (0 < w.u8BatteryLevelWidth →
        BatteryLevelLayerUpdate w
          = [DrawCmd.graphics_context_set_fill_color GColor.GColorWhite,
             DrawCmd.graphics_fill_rect ⟨0, 0, (w.u8BatteryLevelWidth : Int), 4⟩ 0])
      ∧ (w.u8BatteryLevelWidth = 0 → BatteryLevelLayerUpdate w = [])
      ∧ ((MainWindowLoad w).layers LayerVar.tBatteryLevelLayer).frame = ⟨128, 6, 10, 4⟩
      ∧ ((MainWindowLoad w).layers LayerVar.tBatteryLevelLayer).updateProc
          = some UpdateProc.BatteryLevelLayerUpdate
      ∧ (w.u8BatteryLevelWidth ≤ 10 → ∀ r radius,
          DrawCmd.graphics_fill_rect r radius ∈ BatteryLevelLayerUpdate w →
            r.insideLayer ((MainWindowLoad w).layers LayerVar.tBatteryLevelLayer).frame) := by
  have hframe : ((MainWindowLoad w).layers LayerVar.tBatteryLevelLayer).frame
      = ⟨128, 6, 10, 4⟩ := by
    simp [MainWindowLoad, layer_create, bitmap_layer_create, text_layer_create,
      layer_set_update_proc, layer_add_child, gbitmap_create_with_resource, World.modLayer,
      World.log, LayerState.fresh]
  refine ⟨?_, ?_, hframe, ?_, ?_⟩
  · intro h
    simp [BatteryLevelLayerUpdate, h]
  · intro h
    simp [BatteryLevelLayerUpdate, h]
  · simp [MainWindowLoad, layer_create, bitmap_layer_create, text_layer_create,
      layer_set_update_proc, layer_add_child, gbitmap_create_with_resource, World.modLayer,
      World.log, LayerState.fresh]
  · intro h r radius hmem
    rw [hframe]
    unfold BatteryLevelLayerUpdate at hmem
    split at hmem
    · simp at hmem
      obtain ⟨hr, _⟩ := hmem
      subst hr
      simp only [GRect.insideLayer]
      omega
    · simp at hmem

/-- Witness for C4: after a (55, true) battery event the bar is one 5x4 white rectangle. -/
theorem C4_battery_bar_drawing_witness :
    BatteryLevelLayerUpdate (BatteryStateUpdateHandler ⟨55, true, true⟩ World.start)
      = [DrawCmd.graphics_context_set_fill_color GColor.GColorWhite,
         DrawCmd.graphics_fill_rect ⟨0, 0, 5, 4⟩ 0] :=
  (C4_battery_bar_drawing (BatteryStateUpdateHandler ⟨55, true, true⟩ World.start)).1
    (by decide)

/-! ## Traces of the lifecycle functions -/

/-- A trace split at position `n`, with no `q` call before the split and no `p` call after
it, has every `p` call before every `q` call. -/
theorem allBefore_of_split (p q : Call → Bool) (tr : List Call) (n : Nat)
    (hpre : ∀ c ∈ tr.take n, q c = false) (hpost : ∀ c ∈ tr.drop n, p c = false) :
    AllBefore p q tr := by
  intro i j a b hi hj hp hq
  have h1 : i < n := by
    by_contra hcon
    have hle : n ≤ i := Nat.le_of_not_lt hcon
    have hd : (tr.drop n)[i - n]? = some a := by
      rw [List.getElem?_drop, Nat.add_sub_cancel' hle]
      exact hi
    have := hpost a (List.getElem?_mem hd)
    rw [hp] at this
    exact Bool.noConfusion this
  have h2 : n ≤ j := by
    by_contra hcon
    have hlt : j < n := Nat.lt_of_not_le hcon
    have ht : (tr.take n)[j]? = some b := by
      rw [List.getElem?_take_of_lt hlt]
      exact hj
    have := hpre b (List.getElem?_mem ht)
    rw [hq] at this
    exact Bool.noConfusion this
  omega

/-- Boolean form of `allBefore_of_split`, for traces given as explicit lists. -/
theorem allBefore_of_check (p q : Call → Bool) (tr : List Call) (n : Nat)
    (hpre : (tr.take n).all (fun c => !q c) = true)
    (hpost : (tr.drop n).all (fun c => !p c) = true) :
    AllBefore p q tr := by
  apply allBefore_of_split p q tr n
  · intro c hc
    have := List.all_eq_true.mp hpre c hc
    simpa using this
  · intro c hc
    have := List.all_eq_true.mp hpost c hc
    simpa using this

/-- The SDK calls of `Deinit`: the three unsubscriptions, `window_destroy`, and, when the
window is loaded with its handlers set, the six destroy calls of `MainWindowUnload`. -/
theorem emitted_Deinit (w : World) :
    emitted Deinit w
      = [Call.tick_timer_service_unsubscribe, Call.bluetooth_connection_service_unsubscribe,
         Call.battery_state_service_unsubscribe, Call.window_destroy]
        ++ (if w.windowLoaded = true ∧ w.windowHandlers = true then
              [Call.text_layer_destroy LayerVar.tTimeLayer,
               Call.bitmap_layer_destroy LayerVar.tBluetoothConnectedLayer,
               Call.bitmap_layer_destroy LayerVar.tBatteryChargingLayer,
               Call.layer_destroy LayerVar.tBatteryLevelLayer,
               Call.bitmap_layer_destroy LayerVar.tBatteryShellLayer,
               Call.layer_destroy LayerVar.tBackgroundLayer]
            else []) := by
  cases hl : w.windowLoaded <;> cases hh : w.windowHandlers <;>
    simp [emitted, Deinit, TimerDeinit, BluetoothDeinit, BatteryDeinit, GuiDeinit,
      window_destroy, MainWindowUnload, text_layer_destroy, bitmap_layer_destroy,
      layer_destroy, World.modLayer, World.log, hl, hh]

/-- The SDK calls of `Init`, in order; they do not depend on the state `Init` starts from. -/
theorem emitted_Init (env : Env) (w : World) :
    emitted (Init env) w
      = [Call.window_create, Call.window_set_window_handlers, Call.window_stack_push true,
         Call.layer_create LayerVar.tBackgroundLayer ⟨0, 0, 144, 168⟩,
         Call.layer_set_update_proc LayerVar.tBackgroundLayer UpdateProc.BackgroundLayerUpdate,
         Call.layer_add_child LayerVar.tBackgroundLayer,
         Call.gbitmap_create_with_resource BitmapVar.tBatteryShellBitmap
           ResourceId.RESOURCE_ID_IMAGE_BATTERY,
         Call.bitmap_layer_create LayerVar.tBatteryShellLayer ⟨126, 4, 15, 8⟩,
         Call.bitmap_layer_set_bitmap LayerVar.tBatteryShellLayer BitmapVar.tBatteryShellBitmap,
         Call.layer_add_child LayerVar.tBatteryShellLayer,
         Call.layer_create LayerVar.tBatteryLevelLayer ⟨128, 6, 10, 4⟩,
         Call.layer_set_update_proc LayerVar.tBatteryLevelLayer
           UpdateProc.BatteryLevelLayerUpdate,
         Call.layer_add_child LayerVar.tBatteryLevelLayer,
         Call.gbitmap_create_with_resource BitmapVar.tBatteryChargingBitmap
           ResourceId.RESOURCE_ID_IMAGE_CHARGING,
         Call.bitmap_layer_create LayerVar.tBatteryChargingLayer ⟨117, 4, 7, 8⟩,
         Call.bitmap_layer_set_bitmap LayerVar.tBatteryChargingLayer
           BitmapVar.tBatteryChargingBitmap,
         Call.layer_add_child LayerVar.tBatteryChargingLayer,
         Call.gbitmap_create_with_resource BitmapVar.tBluetoothConnectedBitmap
           ResourceId.RESOURCE_ID_IMAGE_BLUETOOTH,
         Call.bitmap_layer_create LayerVar.tBluetoothConnectedLayer ⟨3, 3, 7, 10⟩,
         Call.bitmap_layer_set_bitmap LayerVar.tBluetoothConnectedLayer
           BitmapVar.tBluetoothConnectedBitmap,
         Call.layer_add_child LayerVar.tBluetoothConnectedLayer,
         Call.text_layer_create LayerVar.tTimeLayer ⟨0, 52, 144, 50⟩,
         Call.text_layer_set_background_color LayerVar.tTimeLayer GColor.GColorBlack,
         Call.text_layer_set_text_color LayerVar.tTimeLayer GColor.GColorWhite,
         Call.text_layer_set_font LayerVar.tTimeLayer FontKey.FONT_KEY_BITHAM_42_MEDIUM_NUMBERS,
         Call.text_layer_set_text_alignment_center LayerVar.tTimeLayer,
         Call.layer_add_child LayerVar.tTimeLayer,
         Call.text_layer_create LayerVar.tDateLayer ⟨0, 96, 144, 30⟩,
         Call.text_layer_set_background_color LayerVar.tDateLayer GColor.GColorBlack,
         Call.text_layer_set_text_color LayerVar.tDateLayer GColor.GColorWhite,
         Call.text_layer_set_font LayerVar.tDateLayer FontKey.FONT_KEY_GOTHIC_24,
         Call.text_layer_set_text_alignment_center LayerVar.tDateLayer,
         Call.layer_add_child LayerVar.tDateLayer,
         Call.clock_is_24h_style,
         Call.text_layer_set_text LayerVar.tTimeLayer TextBuffer.timeBuffer,
         Call.text_layer_set_text LayerVar.tDateLayer TextBuffer.dateBuffer,
         Call.battery_state_service_peek,
         Call.layer_mark_dirty LayerVar.tBatteryLevelLayer,
         Call.layer_set_hidden LayerVar.tBatteryChargingLayer (!env.battery.is_charging),
         Call.battery_state_service_subscribe,
         Call.bluetooth_connection_service_peek,
         Call.layer_set_hidden LayerVar.tBluetoothConnectedLayer (!env.bluetooth),
         Call.bluetooth_connection_service_subscribe,
         Call.tick_timer_service_subscribe MINUTE_UNIT] := by
  cases h24 : env.is24h <;>
    simp [emitted, Init, GuiInit, BatteryInit, BluetoothInit, TimerInit, window_create,
      window_set_window_handlers, window_stack_push, MainWindowLoad, GuiUpdateTime,
      GuiUpdateDate, BatteryStateUpdateHandler, BluetoothConnectionUpdateHandler,
      GuiUpdateBatteryLevel, GuiUpdateConnectionStatus, layer_create, bitmap_layer_create,
      text_layer_create, layer_set_update_proc, layer_add_child, gbitmap_create_with_resource,
      layer_mark_dirty, layer_set_hidden, text_layer_set_text, World.modLayer, World.log, h24]

/-- C5: in the SDK calls of `Deinit`, from any state, every unsubscription (tick timer,
connectivity, battery) stands before every destroy call (`window_destroy` and the layer
destroys of the unload handler); all three unsubscriptions and `window_destroy` do occur. -/
theorem C5_unsubscribe_before_destroy (w : World) :
    AllBefore Call.isUnsubscribe Call.isDestroy (emitted Deinit w)
      ∧ Call.tick_timer_service_unsubscribe ∈ emitted Deinit w
      ∧ Call.bluetooth_connection_service_unsubscribe ∈ emitted Deinit w
      ∧ Call.battery_state_service_unsubscribe ∈ emitted Deinit w
      ∧ Call.window_destroy ∈ emitted Deinit w
      ∧ (emitted Deinit w).filter Call.isUnsubscribe
          = [Call.tick_timer_service_unsubscribe, Call.bluetooth_connection_service_unsubscribe,
             Call.battery_state_service_unsubscribe]
      ∧ (emitted Deinit w).take 4
          = [Call.tick_timer_service_unsubscribe, Call.bluetooth_connection_service_unsubscribe,
             Call.battery_state_service_unsubscribe, Call.window_destroy] := by
  rw [emitted_Deinit]
  refine ⟨?_, ?_, ?_, ?_, ?_, ?_, ?_⟩
  · apply allBefore_of_split _ _ _ 3
    · intro c hc
      simp at hc
      rcases hc with rfl | rfl | rfl <;> rfl
    · intro c hc
      by_cases hcond : w.windowLoaded = true ∧ w.windowHandlers = true
      · simp [hcond] at hc
        rcases hc with rfl | rfl | rfl | rfl | rfl | rfl | rfl <;> rfl
      · rw [if_neg hcond] at hc
        simp at hc
        subst hc
        rfl
  · simp
  · simp
  · simp
  · simp
  · by_cases hcond : w.windowLoaded = true ∧ w.windowHandlers = true
    · simp [hcond, Call.isUnsubscribe]
    · rw [if_neg hcond]
      simp [Call.isUnsubscribe]
  · simp

/-- Witness for C5: after `Init` from the start state, `Deinit` issues the battery
unsubscription at position 2 and the destroy of the time layer at position 4. -/
theorem C5_unsubscribe_before_destroy_witness :
    (emitted Deinit (Init sampleEnv World.start))[2]?
        = some Call.battery_state_service_unsubscribe
      ∧ (emitted Deinit (Init sampleEnv World.start))[4]?
        = some (Call.text_layer_destroy LayerVar.tTimeLayer)
      ∧ 2 < 4 :=
  ⟨by decide, by decide,
    (C5_unsubscribe_before_destroy (Init sampleEnv World.start)).1 2 4
      Call.battery_state_service_unsubscribe (Call.text_layer_destroy LayerVar.tTimeLayer)
      (by decide) (by decide) rfl rfl⟩

/-- The claim C6 as stated fails: in the SDK calls of `Init` from the start state it is not
the case that every snapshot read stands before every subscription, because
`battery_state_service_subscribe` (position 39) comes before
`bluetooth_connection_service_peek` (position 40). -/
theorem C6_subscribe_precedes_a_snapshot :
    ¬ AllBefore Call.isSnapshot Call.isSubscribe (emitted (Init sampleEnv) World.start) := by
  intro h
  have := h 40 39 Call.bluetooth_connection_service_peek Call.battery_state_service_subscribe
    (by decide) (by decide) rfl rfl
  omega

/-- C6 (amended): in the SDK calls of `Init`, for any environment and starting state, the
renders, snapshot reads and subscriptions occur in exactly this order: time render, date
render, battery snapshot, battery subscription, connectivity snapshot, connectivity
subscription, tick subscription.  So each source is read before that same source is
subscribed, the battery snapshot and both renders come before every subscription, and the
connectivity snapshot comes before the connectivity and tick subscriptions. -/
theorem C6_snapshot_before_own_subscription (env : Env) (w : World) :
    (emitted (Init env) w).filter Call.isStartupStep
        = [Call.text_layer_set_text LayerVar.tTimeLayer TextBuffer.timeBuffer,
           Call.text_layer_set_text LayerVar.tDateLayer TextBuffer.dateBuffer,
           Call.battery_state_service_peek, Call.battery_state_service_subscribe,
           Call.bluetooth_connection_service_peek, Call.bluetooth_connection_service_subscribe,
           Call.tick_timer_service_subscribe MINUTE_UNIT]
      ∧ AllBefore Call.isBatteryPeek Call.isBatterySubscribe (emitted (Init env) w)
      ∧ AllBefore Call.isBluetoothPeek Call.isBluetoothSubscribe (emitted (Init env) w)
      ∧ AllBefore Call.isTextRender Call.isSubscribe (emitted (Init env) w)
      ∧ AllBefore Call.isBatteryPeek Call.isSubscribe (emitted (Init env) w) := by
  rw [emitted_Init]
  exact ⟨rfl, allBefore_of_check _ _ _ 39 rfl rfl, allBefore_of_check _ _ _ 42 rfl rfl,
    allBefore_of_check _ _ _ 39 rfl rfl, allBefore_of_check _ _ _ 39 rfl rfl⟩

/-- Witness for C6: from the start state, the battery snapshot (position 36) stands before
the battery subscription (position 39). -/
theorem C6_snapshot_before_own_subscription_witness :
    (emitted (Init sampleEnv) World.start)[36]? = some Call.battery_state_service_peek
      ∧ (emitted (Init sampleEnv) World.start)[39]? = some Call.battery_state_service_subscribe
      ∧ 36 < 39 :=
  ⟨by decide, by decide,
    (C6_snapshot_before_own_subscription sampleEnv World.start).2.1 36 39
      Call.battery_state_service_peek Call.battery_state_service_subscribe
      (by decide) (by decide) rfl rfl⟩

/-- C7 at the failing input: after `MainWindowLoad` followed by `MainWindowUnload`, from any
state, the date text layer is still live (it is the only layer left); the same holds after
the whole `Init` then `Deinit` lifecycle. -/
theorem C7_date_layer_survives_unload (env : Env) (w : World) :
    ((MainWindowUnload (MainWindowLoad w)).layers LayerVar.tDateLayer).live = true
      ∧ (MainWindowLoad w).liveLayers = loadedLayers
      ∧ (MainWindowUnload (MainWindowLoad w)).liveLayers = [LayerVar.tDateLayer]
      ∧ (Deinit (Init env w)).liveLayers = [LayerVar.tDateLayer]
      ∧ (Deinit (Init env w)).windowLive = false
      ∧ Call.text_layer_destroy LayerVar.tDateLayer ∉ emitted MainWindowUnload w := by
  refine ⟨rfl, rfl, rfl, ?_, ?_, ?_⟩
  · obtain ⟨now, is24h, battery, bluetooth⟩ := env
    cases is24h <;> rfl
  · obtain ⟨now, is24h, battery, bluetooth⟩ := env
    cases is24h <;> rfl
  · simp [emitted, MainWindowUnload, text_layer_destroy, bitmap_layer_destroy, layer_destroy,
      World.modLayer, World.log]

/-! ## Time and date text -/

/-- Two-digit zero-padded rendering of a number below 100. -/
theorem conv2_zero (n : Nat) (h : n < 100) :
    conv2 '0' n = [Nat.digitChar (n / 10), Nat.digitChar (n % 10)] := by
  interval_cases n <;> rfl

/-- Space-padded rendering of a number below 100 in a field of two. -/
theorem conv2_space (n : Nat) (h : n < 100) :
    conv2 ' ' n
      = if n < 10 then [' ', Nat.digitChar n]
        else [Nat.digitChar (n / 10), Nat.digitChar (n % 10)] := by
  interval_cases n <;> rfl

/-- Expansion of the 24h time format. -/
theorem expandFormat_HM (tm : Tm) :
    expandFormat "%H:%M".toList tm = conv2 '0' tm.tm_hour ++ ':' :: conv2 '0' tm.tm_min := by
  simp [expandFormat, convSpec]

/-- Expansion of the 12h time format. -/
theorem expandFormat_IM (tm : Tm) :
    expandFormat "%I:%M".toList tm
      = conv2 '0' (if tm.tm_hour % 12 = 0 then 12 else tm.tm_hour % 12)
          ++ ':' :: conv2 '0' tm.tm_min := by
  simp [expandFormat, convSpec]

/-- Expansion of the date format. -/
theorem expandFormat_Be (tm : Tm) :
    expandFormat "%B %e".toList tm
      = (monthNames.getD tm.tm_mon "?").toList ++ ' ' :: conv2 ' ' tm.tm_mday := by
  simp [expandFormat, convSpec]

/-- The time layer shows the time buffer after `GuiUpdateTime`. -/
theorem shownText_GuiUpdateTime (env : Env) (w : World) :
    (GuiUpdateTime env w).shownText LayerVar.tTimeLayer
      = strftime TIME_BUFFER_SIZE (if env.is24h = true then "%H:%M" else "%I:%M") env.now := by
  cases h : env.is24h <;>
    simp [GuiUpdateTime, World.shownText, text_layer_set_text, World.modLayer, World.log, h]

/-- The date layer shows the date buffer after `GuiUpdateDate`. -/
theorem shownText_GuiUpdateDate (env : Env) (w : World) :
    (GuiUpdateDate env w).shownText LayerVar.tDateLayer
      = strftime DATE_BUFFER_LENGTH "%B %e" env.now := by
  simp [GuiUpdateDate, World.shownText, text_layer_set_text, World.modLayer, World.log]

/-- Result of `strftime` on the 24h time format for an in-range time. -/
theorem strftime_HM (tm : Tm) (hh : tm.tm_hour < 24) (hm : tm.tm_min < 60) :
    strftime TIME_BUFFER_SIZE "%H:%M" tm
      = some (String.mk [Nat.digitChar (tm.tm_hour / 10), Nat.digitChar (tm.tm_hour % 10), ':',
          Nat.digitChar (tm.tm_min / 10), Nat.digitChar (tm.tm_min % 10)]) := by
  unfold strftime
  rw [expandFormat_HM, conv2_zero _ (by omega), conv2_zero _ (by omega)]
  simp [TIME_BUFFER_SIZE]

/-- Result of `strftime` on the 12h time format for an in-range time. -/
theorem strftime_IM (tm : Tm) (hm : tm.tm_min < 60) (h12 : Nat)
    (hdef : h12 = if tm.tm_hour % 12 = 0 then 12 else tm.tm_hour % 12) :
    strftime TIME_BUFFER_SIZE "%I:%M" tm
      = some (String.mk [Nat.digitChar (h12 / 10), Nat.digitChar (h12 % 10), ':',
          Nat.digitChar (tm.tm_min / 10), Nat.digitChar (tm.tm_min % 10)]) := by
  have hlt : h12 < 100 := by
    rw [hdef]
    split <;> omega
  unfold strftime
  rw [expandFormat_IM, ← hdef, conv2_zero _ hlt, conv2_zero _ (by omega)]
  simp [TIME_BUFFER_SIZE]

/-- C9: for every wall-clock time (hour below 24, minute below 60) the time text shown after
`GuiUpdateTime` has exactly five characters: in 24h mode the two digits of the hour (00-23),
a colon and the two digits of the minute; in 12h mode the two digits of the 12-hour clock
hour (the number in 01-12 congruent to the hour modulo 12), a colon and the two digits of the
minute, and nothing after them; for 09:05 both modes give "09:05". -/
theorem C9_time_text_is_HH_colon_MM (env : Env) (w : World)
    (hh : env.now.tm_hour < 24) (hm : env.now.tm_min < 60) :
    (env.is24h = true →
        (GuiUpdateTime env w).shownText LayerVar.tTimeLayer
          = some (String.mk [Nat.digitChar (env.now.tm_hour / 10),
              Nat.digitChar (env.now.tm_hour % 10), ':',
              Nat.digitChar (env.now.tm_min / 10), Nat.digitChar (env.now.tm_min % 10)]))
      ∧ (env.is24h = false →
          ∃ h12 : Nat, 1 ≤ h12 ∧ h12 ≤ 12 ∧ h12 % 12 = env.now.tm_hour % 12 ∧
            (GuiUpdateTime env w).shownText LayerVar.tTimeLayer
              = some (String.mk [Nat.digitChar (h12 / 10), Nat.digitChar (h12 % 10), ':',
                  Nat.digitChar (env.now.tm_min / 10), Nat.digitChar (env.now.tm_min % 10)]))
      ∧ (∃ s : String, (GuiUpdateTime env w).shownText LayerVar.tTimeLayer = some s
          ∧ s.length = 5)
      ∧ (env.now.tm_hour = 9 → env.now.tm_min = 5 →
          (GuiUpdateTime env w).shownText LayerVar.tTimeLayer = some "09:05") := by
  rw [shownText_GuiUpdateTime]
  have h24 := strftime_HM env.now hh hm
  have h12 := strftime_IM env.now hm _ rfl
  have hrange : 1 ≤ (if env.now.tm_hour % 12 = 0 then 12 else env.now.tm_hour % 12)
      ∧ (if env.now.tm_hour % 12 = 0 then 12 else env.now.tm_hour % 12) ≤ 12
      ∧ (if env.now.tm_hour % 12 = 0 then 12 else env.now.tm_hour % 12) % 12
          = env.now.tm_hour % 12 := by
    split <;> omega
  refine ⟨?_, ?_, ?_, ?_⟩
  · intro hs
    rw [if_pos hs, h24]
  · intro hs
    have hne : ¬ env.is24h = true := by simp [hs]
    rw [if_neg hne]
    exact ⟨_, hrange.1, hrange.2.1, hrange.2.2, h12⟩
  · cases hs : env.is24h
    · have hne : ¬ false = true := by decide
      rw [if_neg hne, h12]
      exact ⟨_, rfl, rfl⟩
    · rw [if_pos rfl, h24]
      exact ⟨_, rfl, rfl⟩
  · intro h9 h5
    cases hs : env.is24h
    · have hne : ¬ false = true := by decide
      rw [if_neg hne, h12, h9, h5]
      rfl
    · rw [if_pos rfl, h24, h9, h5]
      rfl

/-- Witness for C9: at 13:07 in 12h mode the time text is "01:07". -/
theorem C9_time_text_is_HH_colon_MM_witness :
    (GuiUpdateTime ⟨⟨7, 13, 5, 0⟩, false, ⟨55, true, true⟩, true⟩ World.start).shownText
        LayerVar.tTimeLayer = some "01:07"
      ∧ ∃ s : String,
          (GuiUpdateTime ⟨⟨7, 13, 5, 0⟩, false, ⟨55, true, true⟩, true⟩ World.start).shownText
            LayerVar.tTimeLayer = some s ∧ s.length = 5 :=
  ⟨by decide,
    (C9_time_text_is_HH_colon_MM ⟨⟨7, 13, 5, 0⟩, false, ⟨55, true, true⟩, true⟩ World.start
      (by decide) (by decide)).2.2.1⟩

/-- The claim C8 as stated fails: on 5 January `GuiUpdateDate` shows "January  5", with the
day padded by a space to a field of two, not the "January 5" of the specification. -/
theorem C8_single_digit_day_is_padded :
    (GuiUpdateDate sampleEnv World.start).shownText LayerVar.tDateLayer = some "January  5"
      ∧ specDateText sampleEnv.now = "January 5"
      ∧ (GuiUpdateDate sampleEnv World.start).shownText LayerVar.tDateLayer
          ≠ some (specDateText sampleEnv.now) := by
  decide

/-- C8 (amended): for every calendar date outside September, the date text shown after
`GuiUpdateDate` is the full month name, one space, and the day of the month in a field of two
characters, a single-digit day being preceded by a space; it has at most 11 characters and
so fits the 12-byte buffer. -/
theorem C8_date_text_day_in_field_of_two (env : Env) (w : World)
    (hmon : env.now.tm_mon < 12) (hsep : env.now.tm_mon ≠ 8)
    (hd : env.now.tm_mday ≤ 31) :
    ∃ name : String, monthNames[env.now.tm_mon]? = some name ∧
      (GuiUpdateDate env w).shownText LayerVar.tDateLayer
        = some (String.mk (name.toList ++ ' ' ::
            (if env.now.tm_mday < 10 then [' ', Nat.digitChar env.now.tm_mday]
             else [Nat.digitChar (env.now.tm_mday / 10),
                   Nat.digitChar (env.now.tm_mday % 10)])))
      ∧ ∃ s : String, (GuiUpdateDate env w).shownText LayerVar.tDateLayer = some s
          ∧ s.length ≤ 11 := by
  rw [shownText_GuiUpdateDate]
  unfold strftime
  rw [expandFormat_Be, conv2_space _ (by omega)]
  have hlen : (if env.now.tm_mday < 10 then [' ', Nat.digitChar env.now.tm_mday]
      else [Nat.digitChar (env.now.tm_mday / 10), Nat.digitChar (env.now.tm_mday % 10)]).length
        = 2 := by
    split <;> rfl
  generalize (if env.now.tm_mday < 10 then [' ', Nat.digitChar env.now.tm_mday]
      else [Nat.digitChar (env.now.tm_mday / 10), Nat.digitChar (env.now.tm_mday % 10)]) = day
    at hlen
  generalize env.now.tm_mon = m at hmon hsep
  interval_cases m <;>
    first
    | exact absurd rfl hsep
    | (refine ⟨_, rfl, ?_⟩
       simp [monthNames, DATE_BUFFER_LENGTH, hlen])

/-- Witness for C8 (amended): on 25 December the date text is "December 25". -/
theorem C8_date_text_day_in_field_of_two_witness :
    (GuiUpdateDate ⟨⟨0, 0, 25, 11⟩, true, ⟨55, true, true⟩, true⟩ World.start).shownText
        LayerVar.tDateLayer = some "December 25"
      ∧ ∃ s : String,
          (GuiUpdateDate ⟨⟨0, 0, 25, 11⟩, true, ⟨55, true, true⟩, true⟩ World.start).shownText
            LayerVar.tDateLayer = some s ∧ s.length ≤ 11 :=
  ⟨by decide,
    (C8_date_text_day_in_field_of_two ⟨⟨0, 0, 25, 11⟩, true, ⟨55, true, true⟩, true⟩
      World.start (by decide) (by decide) (by decide)).choose_spec.2.2⟩

/-- In September the formatted date never fits: `"September"`, a space and the two-character
day field are 12 characters, one more than the buffer holds beside its terminator. -/
theorem strftime_september_does_not_fit (tm : Tm) (hmon : tm.tm_mon = 8)
    (hd : tm.tm_mday ≤ 31) :
    strftime DATE_BUFFER_LENGTH "%B %e" tm = none := by
  unfold strftime
  rw [expandFormat_Be, conv2_space _ (by omega), hmon]
  have hlen : (if tm.tm_mday < 10 then [' ', Nat.digitChar tm.tm_mday]
      else [Nat.digitChar (tm.tm_mday / 10), Nat.digitChar (tm.tm_mday % 10)]).length = 2 := by
    split <;> rfl
  simp [monthNames, DATE_BUFFER_LENGTH, hlen]

/-! ## Updates after teardown -/

/-- After `Deinit` no event source is subscribed. -/
theorem Deinit_unsubscribed (w : World) :
    (Deinit w).batterySubscribed = false ∧ (Deinit w).bluetoothSubscribed = false
      ∧ (Deinit w).tickSubscribed = none := by
  cases hl : w.windowLoaded <;> cases hh : w.windowHandlers <;>
    simp [Deinit, TimerDeinit, BluetoothDeinit, BatteryDeinit, GuiDeinit, window_destroy,
      MainWindowUnload, text_layer_destroy, bitmap_layer_destroy, layer_destroy,
      World.modLayer, World.log, hl, hh]

/-- The claim C10 as stated fails: in the state after `Init` then `Deinit` from the start
state the window and the battery level layer are destroyed, yet `GuiUpdateBatteryLevel 7
false` is carried out as usual (the stored width goes from 5 to 7 and both SDK calls are
issued on the destroyed layers), and none of the four update entry points is rejected. -/
theorem C10_update_after_teardown_is_accepted :
    (Deinit (Init sampleEnv World.start)).windowLive = false
      ∧ ((Deinit (Init sampleEnv World.start)).layers LayerVar.tBatteryLevelLayer).live = false
      ∧ (Deinit (Init sampleEnv World.start)).u8BatteryLevelWidth = 5
      ∧ (GuiUpdateBatteryLevel 7 false (Deinit (Init sampleEnv World.start))).u8BatteryLevelWidth
          = 7
      ∧ emitted (GuiUpdateBatteryLevel 7 false) (Deinit (Init sampleEnv World.start))
          = [Call.layer_mark_dirty LayerVar.tBatteryLevelLayer,
             Call.layer_set_hidden LayerVar.tBatteryChargingLayer true]
      ∧ ¬ Rejected (GuiUpdateBatteryLevel 7 false) (Deinit (Init sampleEnv World.start))
      ∧ ¬ Rejected (GuiUpdateConnectionStatus false) (Deinit (Init sampleEnv World.start))
      ∧ ¬ Rejected (GuiUpdateTime sampleEnv) (Deinit (Init sampleEnv World.start))
      ∧ ¬ Rejected (GuiUpdateDate sampleEnv) (Deinit (Init sampleEnv World.start)) := by
  refine ⟨by decide, by decide, by decide, by decide, by decide, ?_, ?_, ?_, ?_⟩
  · intro h
    have h2 := congrArg World.u8BatteryLevelWidth h
    revert h2
    decide
  · intro h
    have h2 := congrArg (fun x => (x.layers LayerVar.tBluetoothConnectedLayer).hidden) h
    revert h2
    decide
  · intro h
    have h2 := congrArg (fun x => x.calls.length) h
    revert h2
    decide
  · intro h
    have h2 := congrArg (fun x => x.calls.length) h
    revert h2
    decide

/-- C10 (amended): the update entry points carry no lifecycle check.  Called after `Deinit`,
each one writes the same statics and issues the same SDK calls as when it is called before
`Deinit`.  What keeps updates away after teardown is that `Deinit` leaves no event source
subscribed, so delivering any battery, connectivity or tick event after it changes
nothing. -/
theorem C10_updates_unguarded_events_unsubscribed (env : Env) (w : World) :
    (∀ (lvl : Nat) (chg : Bool),
        (GuiUpdateBatteryLevel lvl chg (Deinit w)).u8BatteryLevelWidth
            = (GuiUpdateBatteryLevel lvl chg w).u8BatteryLevelWidth
          ∧ emitted (GuiUpdateBatteryLevel lvl chg) (Deinit w)
            = emitted (GuiUpdateBatteryLevel lvl chg) w
          ∧ emitted (GuiUpdateBatteryLevel lvl chg) (Deinit w)
            = [Call.layer_mark_dirty LayerVar.tBatteryLevelLayer,
               Call.layer_set_hidden LayerVar.tBatteryChargingLayer (!chg)])
      ∧ (∀ con : Bool,
          emitted (GuiUpdateConnectionStatus con) (Deinit w)
            = emitted (GuiUpdateConnectionStatus con) w
          ∧ ((GuiUpdateConnectionStatus con (Deinit w)).layers
              LayerVar.tBluetoothConnectedLayer).hidden = !con)
      ∧ (GuiUpdateTime env (Deinit w)).timeBuffer = (GuiUpdateTime env w).timeBuffer
      ∧ emitted (GuiUpdateTime env) (Deinit w) = emitted (GuiUpdateTime env) w
      ∧ (GuiUpdateDate env (Deinit w)).dateBuffer = (GuiUpdateDate env w).dateBuffer
      ∧ emitted (GuiUpdateDate env) (Deinit w) = emitted (GuiUpdateDate env) w
      ∧ (Deinit w).batterySubscribed = false
      ∧ (Deinit w).bluetoothSubscribed = false
      ∧ (Deinit w).tickSubscribed = none
      ∧ (∀ e : Event, deliver env e (Deinit w) = Deinit w) := by
  obtain ⟨hb, hc, ht⟩ := Deinit_unsubscribed w
  refine ⟨?_, ?_, ?_, ?_, ?_, ?_, hb, hc, ht, ?_⟩
  · intro lvl chg
    simp [emitted, GuiUpdateBatteryLevel, layer_mark_dirty, layer_set_hidden, World.modLayer,
      World.log]
  · intro con
    simp [emitted, GuiUpdateConnectionStatus, layer_set_hidden, World.modLayer, World.log]
  · cases h : env.is24h <;>
      simp [GuiUpdateTime, text_layer_set_text, World.modLayer, World.log, h]
  · cases h : env.is24h <;>
      simp [emitted, GuiUpdateTime, text_layer_set_text, World.modLayer, World.log, h]
  · simp [GuiUpdateDate, text_layer_set_text, World.modLayer, World.log]
  · simp [emitted, GuiUpdateDate, text_layer_set_text, World.modLayer, World.log]
  · intro e
    cases e <;> simp [deliver, hb, hc, ht]

/-! ## Tick handling -/

/-- The test `tUnitsChanged & DAY_UNIT` of the tick handler succeeds exactly when bit 3 (the
`DAY_UNIT` bit) of the flags is set. -/
theorem and_DAY_UNIT_ne_zero_iff (n : Nat) : n &&& DAY_UNIT ≠ 0 ↔ n.testBit 3 = true := by
  have h := Nat.and_two_pow n 3
  norm_num at h
  unfold DAY_UNIT
  rw [h]
  cases n.testBit 3 <;> simp

/-- The tick handler with the `DAY_UNIT` bit set is the time update followed by the date
update. -/
theorem TickTimerHandler_day (env : Env) (tTickTime : Tm) (tUnitsChanged : Nat) (w : World)
    (h : tUnitsChanged.testBit 3 = true) :
    TickTimerHandler env tTickTime tUnitsChanged w = GuiUpdateDate env (GuiUpdateTime env w) := by
  have hb := (and_DAY_UNIT_ne_zero_iff tUnitsChanged).mpr h
  simp only [TickTimerHandler]
  rw [if_pos hb]

/-- The tick handler with the `DAY_UNIT` bit clear is the time update alone. -/
theorem TickTimerHandler_no_day (env : Env) (tTickTime : Tm) (tUnitsChanged : Nat) (w : World)
    (h : tUnitsChanged.testBit 3 = false) :
    TickTimerHandler env tTickTime tUnitsChanged w = GuiUpdateTime env w := by
  have hb : ¬ (tUnitsChanged &&& DAY_UNIT ≠ 0) := by
    rw [and_DAY_UNIT_ne_zero_iff, h]
    decide
  simp only [TickTimerHandler]
  rw [if_neg hb]

/-- The SDK calls of `GuiUpdateTime`. -/
theorem emitted_GuiUpdateTime (env : Env) (w : World) :
    emitted (GuiUpdateTime env) w
      = [Call.clock_is_24h_style,
         Call.text_layer_set_text LayerVar.tTimeLayer TextBuffer.timeBuffer] := by
  cases h : env.is24h <;>
    simp [emitted, GuiUpdateTime, text_layer_set_text, World.modLayer, World.log, h]

/-- The SDK calls of `GuiUpdateTime` followed by `GuiUpdateDate`. -/
theorem emitted_GuiUpdateTime_then_Date (env : Env) (w : World) :
    emitted (fun x => GuiUpdateDate env (GuiUpdateTime env x)) w
      = [Call.clock_is_24h_style,
         Call.text_layer_set_text LayerVar.tTimeLayer TextBuffer.timeBuffer,
         Call.text_layer_set_text LayerVar.tDateLayer TextBuffer.dateBuffer] := by
  cases h : env.is24h <;>
    simp [emitted, GuiUpdateTime, GuiUpdateDate, text_layer_set_text, World.modLayer,
      World.log, h]

/-- C11: for every tick event, whatever flags are set, `TickTimerHandler` re-renders the time
text (it issues `text_layer_set_text` on the time layer, which then shows the freshly
formatted time).  It re-renders the date text (issues `text_layer_set_text` on the date
layer, which then shows the freshly formatted date) if and only if the `DAY_UNIT` bit of the
units-changed flags is set; when the bit is clear it is the time update alone, the date
buffer and the date layer are untouched, and the date text shown is as before. -/
theorem C11_tick_rerenders_time_and_date_on_day_change (env : Env) (tTickTime : Tm)
    (tUnitsChanged : Nat) (w : World) :
    Call.text_layer_set_text LayerVar.tTimeLayer TextBuffer.timeBuffer
        ∈ emitted (TickTimerHandler env tTickTime tUnitsChanged) w
      ∧ (TickTimerHandler env tTickTime tUnitsChanged w).shownText LayerVar.tTimeLayer
          = strftime TIME_BUFFER_SIZE (if env.is24h = true then "%H:%M" else "%I:%M") env.now
      ∧ (Call.text_layer_set_text LayerVar.tDateLayer TextBuffer.dateBuffer
            ∈ emitted (TickTimerHandler env tTickTime tUnitsChanged) w
          ↔ tUnitsChanged.testBit 3 = true)
      ∧ (tUnitsChanged.testBit 3 = true →
          TickTimerHandler env tTickTime tUnitsChanged w
              = GuiUpdateDate env (GuiUpdateTime env w)
            ∧ (TickTimerHandler env tTickTime tUnitsChanged w).shownText LayerVar.tDateLayer
              = strftime DATE_BUFFER_LENGTH "%B %e" env.now)
      ∧ (tUnitsChanged.testBit 3 = false →
          TickTimerHandler env tTickTime tUnitsChanged w = GuiUpdateTime env w
            ∧ (TickTimerHandler env tTickTime tUnitsChanged w).dateBuffer = w.dateBuffer
            ∧ (TickTimerHandler env tTickTime tUnitsChanged w).layers LayerVar.tDateLayer
              = w.layers LayerVar.tDateLayer
            ∧ ((w.layers LayerVar.tDateLayer).text ≠ some TextBuffer.timeBuffer →
                (TickTimerHandler env tTickTime tUnitsChanged w).shownText LayerVar.tDateLayer
                  = w.shownText LayerVar.tDateLayer)) := by
  cases hbit : tUnitsChanged.testBit 3
  · have hfun : TickTimerHandler env tTickTime tUnitsChanged = GuiUpdateTime env := by
      funext x
      exact TickTimerHandler_no_day env tTickTime tUnitsChanged x hbit
    have hdb : (GuiUpdateTime env w).dateBuffer = w.dateBuffer := by
      cases h : env.is24h <;>
        simp [GuiUpdateTime, text_layer_set_text, World.modLayer, World.log, h]
    have hdl : (GuiUpdateTime env w).layers LayerVar.tDateLayer
        = w.layers LayerVar.tDateLayer := by
      cases h : env.is24h <;>
        simp [GuiUpdateTime, text_layer_set_text, World.modLayer, World.log, h]
    rw [hfun, emitted_GuiUpdateTime, shownText_GuiUpdateTime]
    refine ⟨by simp, rfl, by simp, ?_, ?_⟩
    · intro hcon
      exact absurd hcon (by decide)
    · intro _
      refine ⟨rfl, hdb, hdl, ?_⟩
      intro hne
      unfold World.shownText
      rw [hdl, hdb]
      cases htext : (w.layers LayerVar.tDateLayer).text with
      | none => rfl
      | some buf =>
        cases buf with
        | timeBuffer => exact absurd htext hne
        | dateBuffer => rfl
  · have hfun : TickTimerHandler env tTickTime tUnitsChanged
        = fun x => GuiUpdateDate env (GuiUpdateTime env x) := by
      funext x
      exact TickTimerHandler_day env tTickTime tUnitsChanged x hbit
    have htime : (GuiUpdateDate env (GuiUpdateTime env w)).shownText LayerVar.tTimeLayer
        = (GuiUpdateTime env w).shownText LayerVar.tTimeLayer := by
      cases h : env.is24h <;>
        simp [GuiUpdateDate, GuiUpdateTime, World.shownText, text_layer_set_text,
          World.modLayer, World.log, h]
    rw [hfun, emitted_GuiUpdateTime_then_Date]
    refine ⟨by simp, ?_, by simp, ?_, ?_⟩
    · show (GuiUpdateDate env (GuiUpdateTime env w)).shownText LayerVar.tTimeLayer = _
      rw [htime, shownText_GuiUpdateTime]
    · intro _
      exact ⟨rfl, shownText_GuiUpdateDate env (GuiUpdateTime env w)⟩
    · intro hcon
      exact absurd hcon (by decide)

/-- Witness for C11: after `Init` from the start state, a minute tick (only `MINUTE_UNIT`
set) leaves the date text as it was, "January  5". -/
theorem C11_tick_rerenders_time_and_date_on_day_change_witness :
    (Init sampleEnv World.start).shownText LayerVar.tDateLayer = some "January  5"
      ∧ (TickTimerHandler sampleEnv sampleEnv.now MINUTE_UNIT
          (Init sampleEnv World.start)).shownText LayerVar.tDateLayer
        = (Init sampleEnv World.start).shownText LayerVar.tDateLayer :=
  ⟨by decide,
    ((C11_tick_rerenders_time_and_date_on_day_change sampleEnv sampleEnv.now MINUTE_UNIT
      (Init sampleEnv World.start)).2.2.2.2 (by decide)).2.2.2 (by decide)⟩

end Timeface
